import Mathlib

/-!
Verification of the Taskera AI browser client (src/frontend/src/js/main.js).

The client is a single event-driven script.  We shallowly embed the parts of it
that the specification talks about:

* the HTML-escaping and message-rendering helpers (`escapeHtml`,
  `formatAIResponse`, `addSystemMessage`, `createMessageElement`,
  `renderFileAttachments`),
* the chat request orchestrator (`sendChatRequest`, `handleChatSubmit`,
  `cancelOngoingRequest`, `handleLogout`, `handleNewSession`, `loadThread`),
* the file staging helpers (`handleFileStage`, `handleFileRemove`,
  `clearStagedFiles`),
* the request timeout wiring (the `setTimeout`/`clearTimeout` pair around the
  chat `fetch`),
* a small step-relation model of the single-threaded event loop, used for the
  one-in-flight-request invariant.

JS strings are modelled as `List Char`; the mutable `state` object of main.js
is the record `State` below; network nondeterminism is an explicit list of
`Outcome`s consumed one per fetch attempt; DOM side effects that the claims
mention (status messages, waits, modal openings) are recorded in an event
trace `List Ev`.
-/

namespace Taskera

/-! ### Configuration constants (main.js, `CONFIG`, lines 24-31) -/

def MAX_FILES : Nat := 10

def MAX_FILE_SIZE_MB : Nat := 10

def MAX_RETRY_ATTEMPTS : Nat := 3

def RETRY_DELAY_MS : Nat := 2000

def REQUEST_TIMEOUT_MS : Nat := 60000

/-- Source: `CONFIG.ALLOWED_EXTS` (main.js line 30). -/
def ALLOWED_EXTS : List (List Char) :=
  [".png".data, ".jpg".data, ".jpeg".data, ".pdf".data, ".txt".data, ".md".data,
   ".docx".data, ".doc".data]

/-! ### `escapeHtml` (main.js line 898)

`escapeHtml` is a chain of five global single-character `String.replace`
calls.  A global replace of one character by a string is `repChar` below;
`escapeHtml` composes the five in the order of the source: `&`, `<`, `>`,
`"`, `'`. -/

/-- The apostrophe character (kept out of literals when possible). -/
def apos : Char := Char.ofNat 39

/-- Source: `s.replace(/c/g, r)` for a single character `c`: every occurrence of `c`
is replaced by the string `r`, all other characters are kept. -/
def repChar (c : Char) (r : List Char) (l : List Char) : List Char :=
  l.flatMap fun x => if x = c then r else [x]

def ampEnt : List Char := ['&', 'a', 'm', 'p', ';']

def ltEnt : List Char := ['&', 'l', 't', ';']

def gtEnt : List Char := ['&', 'g', 't', ';']

def quotEnt : List Char := ['&', 'q', 'u', 'o', 't', ';']

def aposEnt : List Char := ['&', '#', '0', '3', '9', ';']

/-- main.js line 898:
`function escapeHtml(u) { if (!u) return ''; return u.replace(/&/g, "&amp;")
.replace(/</g, "&lt;").replace(/>/g, "&gt;").replace(/"/g, "&quot;")
.replace(/'/g, "&#039;"); }` -/
def escapeHtml (u : List Char) : List Char :=
  if u.isEmpty then []
  else
    repChar apos aposEnt
      (repChar '"' quotEnt
        (repChar '>' gtEnt
          (repChar '<' ltEnt
            (repChar '&' ampEnt u))))

/-! ### `formatAIResponse` (main.js lines 887-896)

`formatAIResponse` first escapes the text and then applies five regex
replacements (bold, fenced code, inline code, list items, links) and finally
turns newlines into `<br>`.  Each replacement is implemented below as a
left-to-right scanner; `splitOnce pat s` splits `s` at the first occurrence
of `pat` (the leftmost-match rule of JS global regexes). -/

def nlChar : Char := Char.ofNat 10

/-- Source: `true` when `pat` is a prefix of `s`. -/
def headMatches : List Char → List Char → Bool
  | [], _ => true
  | _ :: _, [] => false
  | p :: ps, c :: cs => p == c && headMatches ps cs

/-- Split at the first occurrence of `pat`: `some (before, after)` with
`s = before ++ pat ++ after`, or `none` when `pat` does not occur. -/
def splitOnce (pat : List Char) : List Char → Option (List Char × List Char)
  | [] => none
  | c :: cs =>
    if headMatches pat (c :: cs) then some ([], (c :: cs).drop pat.length)
    else
      match splitOnce pat cs with
      | some (a, r) => some (c :: a, r)
      | none => none

/-- One lazily-matched delimited-pair replacement, e.g.
`/\*\*(.*?)\*\*/g`: repeatedly find the next `pat … pat` pair with the
shortest group, wrap the group in `pre`/`post` when `valid` accepts it
(the group of `.*?` may not span a newline; the group of an inline code
span must be nonempty), otherwise leave the opening `pat` literal and keep
scanning.  `fuel` bounds the recursion (the scanner always advances, so
`s.length` fuel suffices). -/
def pairPassAux (pat pre post : List Char) (valid : List Char → Bool) :
    Nat → List Char → List Char
  | 0, s => s
  | fuel + 1, s =>
    match splitOnce pat s with
    | none => s
    | some (a, rest) =>
      match splitOnce pat rest with
      | none => s
      | some (b, rest2) =>
        if valid b then
          a ++ pre ++ b ++ post ++ pairPassAux pat pre post valid fuel rest2
        else
          a ++ pat ++ pairPassAux pat pre post valid fuel rest

def pairPass (pat pre post : List Char) (valid : List Char → Bool) (s : List Char) :
    List Char :=
  pairPassAux pat pre post valid s.length s

/-- Source: `f.replace(/\*\*(.*?)\*\*/g, '<strong class="text-white">$1</strong>')`
(main.js line 890); `.` does not match a newline. -/
def boldPass (s : List Char) : List Char :=
  pairPass "**".data "<strong class=\"text-white\">".data "</strong>".data
    (fun b => !b.contains nlChar) s

/-- main.js line 891, the fenced-code replacement; `[\s\S]*?` may span
newlines. -/
def codeBlockPass (s : List Char) : List Char :=
  pairPass "```".data
    "<pre class=\"bg-zinc-900 p-3 rounded-lg my-2 overflow-x-auto\"><code class=\"text-xs text-fuchsia-300\">".data
    "</code></pre>".data (fun _ => true) s

/-- main.js line 892, the inline-code replacement; the group is `[^`]+`, so
it must be nonempty (it cannot contain a backtick because the scanner stops
at the next one). -/
def inlineCodePass (s : List Char) : List Char :=
  pairPass [Char.ofNat 96]
    "<code class=\"bg-zinc-800 px-1.5 py-0.5 rounded text-fuchsia-300 font-mono text-xs\">".data
    "</code>".data (fun b => !b.isEmpty) s

/-- Whitespace as matched by `\s` on the characters that occur here. -/
def isWsChar (c : Char) : Bool :=
  c == ' ' || c == Char.ofNat 9 || c == Char.ofNat 13 || c == Char.ofNat 12 || c == Char.ofNat 11

/-- One line of `f.replace(/^\s*[-*]\s+(.*)$/gm, '<li class="ml-4 list-disc">$1</li>')`
(main.js line 893): with the `m` flag the pattern is anchored to each line. -/
def lineListItem (line : List Char) : List Char :=
  match line.dropWhile isWsChar with
  | [] => line
  | c :: r2 =>
    if (c == '-' || c == '*') && !(r2.takeWhile isWsChar).isEmpty then
      "<li class=\"ml-4 list-disc\">".data ++ r2.dropWhile isWsChar ++ "</li>".data
    else line

def listPass (s : List Char) : List Char :=
  List.intercalate [nlChar] ((s.splitOn nlChar).map lineListItem)

/-- Source: `f.replace(/(https?:\/\/[^\s]+)/g, '<a href="$1" target="_blank"
class="text-fuchsia-400 hover:underline">$1</a>')` (main.js line 894). -/
def urlPassAux : Nat → List Char → List Char
  | 0, s => s
  | fuel + 1, s =>
    match splitOnce "http".data s with
    | none => s
    | some (a, rest) =>
      let scheme? : Option (List Char × List Char) :=
        if headMatches "s://".data rest then some ("https://".data, rest.drop 4)
        else if headMatches "://".data rest then some ("http://".data, rest.drop 3)
        else none
      match scheme? with
      | none => a ++ "http".data ++ urlPassAux fuel rest
      | some (scheme, rest2) =>
        let tok := rest2.takeWhile (fun c => !isWsChar c && c != nlChar)
        if tok.isEmpty then a ++ "http".data ++ urlPassAux fuel rest
        else
          let url := scheme ++ tok
          a ++ "<a href=\"".data ++ url ++
            "\" target=\"_blank\" class=\"text-fuchsia-400 hover:underline\">".data ++
            url ++ "</a>".data ++
            urlPassAux fuel (rest2.drop tok.length)

def urlPass (s : List Char) : List Char := urlPassAux s.length s

/-- Source: `f.replace(/\n/g, '<br>')` (main.js line 895). -/
def brPass (s : List Char) : List Char := repChar nlChar "<br>".data s

/-- The post-escaping decoration chain of `formatAIResponse`
(main.js lines 890-895). -/
def mdDecorate (f : List Char) : List Char :=
  brPass (urlPass (listPass (inlineCodePass (codeBlockPass (boldPass f)))))

/-- main.js lines 887-896: `if (!text) return ''; let f = escapeHtml(text); …`. -/
def formatAIResponse (text : List Char) : List Char :=
  if text.isEmpty then [] else mdDecorate (escapeHtml text)

/-! ### Chat-log HTML builders (main.js lines 899-913)

Template literals are concatenation; only the interpolated segments vary. -/

def fileChipPre : List Char :=
  "<div class=\"text-xs text-white/70 bg-black/20 px-2 py-1 rounded border border-white/5\">".data

def fileChipPost : List Char := "</div>".data

def fileListPre : List Char :=
  "<div class=\"mt-2 pt-2 border-t border-white/10 flex flex-wrap gap-2\">".data

def fileListPost : List Char := "</div>".data

/-- main.js line 899: `renderFileAttachments(n)` returns `''` for a missing
or empty list, otherwise a container of per-name chips, each holding
`escapeHtml(x)`. -/
def renderFileAttachments : Option (List (List Char)) → List Char
  | none => []
  | some [] => []
  | some ns =>
    fileListPre ++ (ns.flatMap fun x => fileChipPre ++ escapeHtml x ++ fileChipPost) ++
      fileListPost

def userMsgPre : List Char :=
  ("<div class=\"flex flex-col items-end max-w-[85%] md:max-w-2xl\">" ++
   "<div class=\"bg-zinc-800 text-white rounded-2xl rounded-tr-sm px-5 py-3.5 shadow-md border border-zinc-700/50\">" ++
   "<p class=\"text-sm leading-relaxed whitespace-pre-wrap\">").data

def userMsgMid : List Char := "</p>".data

def userMsgPost : List Char := "</div></div>".data

/-- The user branch of `createMessageElement` (main.js line 905): the message
is interpolated as `escapeHtml(message)` and the attachments via
`renderFileAttachments(fileNames)`. -/
def userMessageHtml (message : List Char) (fileNames : Option (List (List Char))) :
    List Char :=
  userMsgPre ++ escapeHtml message ++ userMsgMid ++ renderFileAttachments fileNames ++
    userMsgPost

def sysMsgPre : List Char :=
  "<span class=\"text-xs text-zinc-500 bg-zinc-900/50 border border-zinc-800 px-3 py-1 rounded-full\">".data

def sysMsgPost : List Char := "</span>".data

/-- The inner HTML of `addSystemMessage` (main.js line 913): the status text
is interpolated as `escapeHtml(text)`. -/
def systemMessageHtml (text : List Char) : List Char :=
  sysMsgPre ++ escapeHtml text ++ sysMsgPost

/-! ### Data model (main.js lines 33-46)

`Storage` models the four persisted localStorage keys (`KEYS`, lines 17-22);
`State` models the mutable `state` object.  `time` stands for `Date.now()`:
it advances by one at each `sendChatRequest` invocation and is used as the
(otherwise timestamp-based) request key, and `uuidSeed` is the value the next
`generateUUID()` call would produce. -/

structure FileInfo where
  name : List Char
  size : Nat
deriving DecidableEq

structure StagedFile where
  id : Nat
  file : FileInfo
deriving DecidableEq

structure Storage where
  authToken : Option (List Char)
  userId : Option (List Char)
  userEmail : Option (List Char)
  guestId : Option (List Char)
deriving DecidableEq

structure State where
  currentUserId : Option (List Char)
  authToken : Option (List Char)
  currentThreadId : Option (List Char)
  stagedFiles : List StagedFile
  isLoginMode : Bool
  isProcessing : Bool
  retryCount : Nat
  abortController : Bool
  isOnline : Bool
  lastRequestTime : Int
  requestQueue : List Nat
  time : Nat
  nextFileId : Nat
  uuidSeed : List Char
  storage : Storage
  authModalOpen : Bool
  authModalMsg : Option (List Char)
  controlsDisabled : Bool
deriving DecidableEq

/-- Observable effects that the claims talk about. -/
inductive Ev where
  /-- a chat `fetch` was issued -/
  | fetch
  /-- an awaited `setTimeout` delay of `ms` milliseconds -/
  | wait (ms : Nat)
  /-- Source: `addSystemMessage(s)` -/
  | sysMsg (s : List Char)
  /-- Source: `addMessageToChat('user', s, files)` -/
  | userMsg (s : List Char) (files : Option (List (List Char)))
  /-- Source: `addMessageToChat('ai', s)` -/
  | aiMsg (s : List Char)
  /-- Source: `showAuthModal(isLogin, msg)` -/
  | authModal (isLogin : Bool) (msg : Option (List Char))
deriving DecidableEq

/-- The result of one chat `fetch` attempt, as seen by the `try`/`catch`
around it: an HTTP response (with the parsed JSON fields the handler reads),
a rejected promise that is not an abort, or an `AbortError` (user
cancellation or the request timeout). -/
inductive Outcome where
  | status (code : Nat) (threadId : Option (List Char)) (answer : List Char)
      (errDetail : Option (List Char))
  | networkError (msg : List Char)
  | aborted
deriving DecidableEq

/-! ### State operations (main.js) -/

/-- Source: `setProcessing` (main.js lines 801-808): sets `state.isProcessing` and
disables/enables the input, send and upload controls together. -/
def setProcessing (proc : Bool) (st : State) : State :=
  { st with isProcessing := proc, controlsDisabled := proc }

/-- Source: `cancelOngoingRequest` (main.js lines 217-225). -/
def cancelOngoingRequest (st : State) : State × List Ev :=
  if st.abortController then
    (setProcessing false { st with abortController := false },
     [Ev.sysMsg "Request cancelled".data])
  else (st, [])

/-- Source: `clearStagedFiles` (main.js lines 853-856). -/
def clearStagedFiles (st : State) : State :=
  { st with stagedFiles := [] }

/-- Source: `showAuthModal` (main.js lines 721-731): records the mode, opens the
modal and shows `msg` when present. -/
def showAuthModal (isLogin : Bool) (msg : Option (List Char)) (st : State) : State :=
  { st with isLoginMode := isLogin, authModalOpen := true, authModalMsg := msg }

/-- Source: `handleNewSession` (main.js lines 771-782), state effects only: cancel
any ongoing request, clear the staged files, reset the retry counter and the
thread id. -/
def handleNewSession (st : State) : State × List Ev :=
  let (st1, evs) := cancelOngoingRequest st
  let st2 := clearStagedFiles st1
  ({ st2 with retryCount := 0, currentThreadId := none }, evs)

/-- Source: `handleLogout` (main.js lines 667-682): cancel, remove the three
persisted session keys, null the token, install a fresh guest identity
(`'guest_' + generateUUID()`), and start a new session. -/
def handleLogout (st : State) : State × List Ev :=
  let (st1, evs1) := cancelOngoingRequest st
  let st2 := { st1 with
    storage := { st1.storage with authToken := none, userId := none, userEmail := none },
    authToken := none }
  let guestId := "guest_".data ++ st2.uuidSeed
  let st3 := { st2 with
    storage := { st2.storage with guestId := some guestId },
    currentUserId := some guestId }
  let (st4, evs2) := handleNewSession st3
  (st4, evs1 ++ evs2 ++ [Ev.sysMsg "Logged out successfully".data])

/-- Source: `loadThread` (main.js lines 434-471), state effects only. -/
def loadThread (threadId : List Char) (st : State) : State × List Ev :=
  if st.currentThreadId = some threadId then (st, [])
  else
    let (st1, evs) := cancelOngoingRequest st
    ({ st1 with currentThreadId := some threadId },
     evs ++ [Ev.sysMsg "Loading conversation...".data])

/-- The `finally` block of `sendChatRequest` (main.js lines 326-329):
`setProcessing(false); state.requestQueue.delete(requestKey)`. -/
def finallyBlock (key : Nat) (st : State) : State :=
  let st1 := setProcessing false st
  { st1 with requestQueue := st1.requestQueue.erase key }

/-- Source: `response.ok` of the Fetch API: status in 200-299. -/
def responseOk (code : Nat) : Bool := 200 ≤ code && code ≤ 299

/-- The retry status message of main.js line 290. -/
def retryMsg (n : Nat) : List Char :=
  "Timeout/Busy. Retrying (".data ++ (Nat.repr n).data ++ "/".data ++
    (Nat.repr MAX_RETRY_ATTEMPTS).data ++ ")...".data

/-- Source: `sendChatRequest(message, hasFiles)` (main.js lines 227-330).

The list of `Outcome`s supplies, in order, the result of each `fetch`
attempt (the head is consumed by this attempt; the tail is available to the
recursive retry call at line 292).  An empty outcome list returns the state
unchanged — theorems always supply at least one outcome. -/
def sendChatRequest (message : List Char) (hasFiles : Bool) :
    State → List Outcome → State × List Ev
  | st, [] => (st, [])
  | st, o :: rest =>
    -- line 228-230: requestKey dedup (the key contains `Date.now()`)
    let key := st.time
    if key ∈ st.requestQueue then (st, [])
    else
      let st1 := { st with requestQueue := key :: st.requestQueue, time := st.time + 1 }
      -- lines 233-250: echo the user message, clear input/files, lock the UI
      let fileNames := st1.stagedFiles.map fun f => f.file.name
      let ev0 := [Ev.userMsg message (if hasFiles then some fileNames else none)]
      let st2 := setProcessing true (clearStagedFiles st1)
      -- line 252: `state.abortController = new AbortController()`
      let st3 := { st2 with abortController := true }
      match o with
      | Outcome.aborted =>
        -- lines 315-321: catch; AbortError → "Request timed out"
        let st4 := { st3 with abortController := false }
        (finallyBlock key st4, ev0 ++ [Ev.fetch, Ev.sysMsg "Request timed out".data])
      | Outcome.networkError m =>
        -- lines 315-324: catch; non-abort error → `Error: ${error.message}`
        let st4 := { st3 with abortController := false }
        (finallyBlock key st4, ev0 ++ [Ev.fetch, Ev.sysMsg ("Error: ".data ++ m)])
      | Outcome.status code tid ans errDetail =>
        -- line 270: `state.abortController = null`
        let st4 := { st3 with abortController := false }
        if code = 402 then
          -- lines 272-276
          (finallyBlock key (showAuthModal false (some "Quota Exceeded".data) st4),
           ev0 ++ [Ev.fetch, Ev.sysMsg "Free trial limit reached. Please sign in.".data,
                   Ev.authModal false (some "Quota Exceeded".data)])
        else if code = 401 then
          -- lines 277-281
          let (st5, evs5) := handleLogout st4
          (finallyBlock key
             (showAuthModal true (some "Session expired. Log in again.".data) st5),
           ev0 ++ [Ev.fetch] ++ evs5 ++
             [Ev.authModal true (some "Session expired. Log in again.".data)])
        else if code = 429 then
          -- lines 282-286
          (finallyBlock key st4,
           ev0 ++ [Ev.fetch, Ev.sysMsg "Rate limit exceeded. Waiting 3s...".data,
                   Ev.wait 3000])
        else if code = 503 ∨ code = 504 then
          -- lines 287-298
          if st4.retryCount < MAX_RETRY_ATTEMPTS then
            let st5 := { st4 with retryCount := st4.retryCount + 1 }
            let inner := sendChatRequest message hasFiles st5 rest
            (finallyBlock key inner.1,
             ev0 ++ [Ev.fetch, Ev.sysMsg (retryMsg st5.retryCount),
                     Ev.wait (RETRY_DELAY_MS * st5.retryCount)] ++ inner.2)
          else
            (finallyBlock key { st4 with retryCount := 0 },
             ev0 ++ [Ev.fetch,
                     Ev.sysMsg "Service unavailable. Please try again later.".data])
        else if responseOk code then
          -- lines 300-313
          let st5 :=
            match tid with
            | some t => { st4 with currentThreadId := some t }
            | none => st4
          (finallyBlock key { st5 with retryCount := 0 },
           ev0 ++ [Ev.fetch, Ev.aiMsg ans])
        else
          -- line 302: `throw new Error(data.detail?.message || data.error
          -- || `Error: ${response.status}`)`, caught at line 315
          let emsg :=
            match errDetail with
            | some m => m
            | none => "Error: ".data ++ (Nat.repr code).data
          (finallyBlock key st4,
           ev0 ++ [Ev.fetch, Ev.sysMsg ("Error: ".data ++ emsg)])

/-- Source: `handleChatSubmit` (main.js lines 188-215).  `now` is `Date.now()` at
entry and `message` is the already-trimmed input value. -/
def handleChatSubmit (now : Int) (message : List Char) (outs : List Outcome)
    (st : State) : State × List Ev :=
  if st.isOnline = false then (st, [Ev.sysMsg "No internet connection.".data])
  else if st.isProcessing then cancelOngoingRequest st
  else if message = [] ∧ st.stagedFiles.length = 0 then (st, [])
  else if now - st.lastRequestTime < 1000 then
    (st, [Ev.sysMsg "Please wait a moment before sending another message".data])
  else
    let st1 := { st with lastRequestTime := now, retryCount := 0 }
    sendChatRequest message (decide (0 < st.stagedFiles.length)) st1 outs

/-! ### File staging (main.js lines 816-856) -/

/-- Source: `"." + file.name.split('.').pop().toLowerCase()` (main.js line 827). -/
def fileExt (name : List Char) : List Char :=
  '.' :: ((name.splitOn '.').getLastD []).map Char.toLower

/-- The per-file size check of main.js line 823.  The source compares
`file.size / (1024 * 1024) > CONFIG.MAX_FILE_SIZE_MB`; division by the power
of two `1024 * 1024` is exact for IEEE doubles in the representable range, so
the comparison is equivalent to this integer one. -/
def fileTooLarge (f : FileInfo) : Bool :=
  MAX_FILE_SIZE_MB * (1024 * 1024) < f.size

/-- The body of the `files.forEach(file => …)` loop of `handleFileStage`
(main.js lines 822-835): reject an oversized file with a message, reject a
disallowed extension with a message, otherwise push `{ id, file }`. -/
def stageFile (acc : State × List Ev) (f : FileInfo) : State × List Ev :=
  if fileTooLarge f then
    (acc.1, acc.2 ++ [Ev.sysMsg (f.name ++ " too large.".data)])
  else if !ALLOWED_EXTS.contains (fileExt f.name) then
    (acc.1, acc.2 ++ [Ev.sysMsg (f.name ++ " unsupported.".data)])
  else
    ({ acc.1 with
        stagedFiles := acc.1.stagedFiles ++ [⟨acc.1.nextFileId, f⟩],
        nextFileId := acc.1.nextFileId + 1 },
     acc.2)

/-- Source: `handleFileStage` (main.js lines 816-837).  `files` is
`Array.from(e.target.files)`; the staged ids come from `generateUUID()`,
modelled by the `nextFileId` counter. -/
def handleFileStage (files : List FileInfo) (st : State) : State × List Ev :=
  if MAX_FILES < st.stagedFiles.length + files.length then
    (st, [Ev.sysMsg ("Max ".data ++ (Nat.repr MAX_FILES).data ++ " files.".data)])
  else
    files.foldl stageFile (st, [])

/-- Source: `handleFileRemove` (main.js lines 847-851):
`state.stagedFiles = state.stagedFiles.filter(f => f.id !== id)`. -/
def handleFileRemove (id : Nat) (st : State) : State :=
  { st with stagedFiles := st.stagedFiles.filter fun f => f.id != id }

/-! ### Event-loop step model for the in-flight-request invariant

The browser runs main.js on a single thread and drains microtasks between
macrotasks, so the handler continuations of a settled or aborted `fetch`
(its `catch`/`finally`) run before the next user event.  `Sys` records the
concurrency-relevant skeleton of `state`: `inFlight` counts chat `fetch`
calls that have been issued and not yet settled or aborted, and
`pendingRetry` is true while a 503/504 handler is awaiting its retry delay
(during which `abortController` is already null, main.js line 270). -/

structure Sys where
  isProcessing : Bool
  abortController : Bool
  inFlight : Nat
  pendingRetry : Bool
deriving DecidableEq

def sysInit : Sys :=
  { isProcessing := false, abortController := false, inFlight := 0, pendingRetry := false }

/-- Source: `cancelOngoingRequest` (main.js lines 217-225) at skeleton level: when a
controller exists, aborting it also settles the in-flight fetch (its
`AbortError` teardown runs in the drained microtasks). -/
def cancelOngoingSys (s : Sys) : Sys :=
  if s.abortController then
    { s with abortController := false, isProcessing := false,
             inFlight := s.inFlight - 1 }
  else s

/-- Source: `handleChatSubmit` (main.js lines 196-199 and 214) at skeleton level:
while processing, a submission only cancels; otherwise it issues a fetch. -/
def submitSys (s : Sys) : Sys :=
  if s.isProcessing then cancelOngoingSys s
  else { s with isProcessing := true, abortController := true,
                inFlight := s.inFlight + 1 }

/-- A fetch settles and its handler runs to the `finally` without scheduling
a retry (success, 4xx, error and abort paths: main.js lines 268-329). -/
def settleNoRetrySys (s : Sys) : Sys :=
  { isProcessing := false, abortController := false, inFlight := s.inFlight - 1,
    pendingRetry := false }

/-- A fetch settles with 503/504 and retries remain (main.js lines 287-292):
the handler nulls the controller and awaits the retry delay; `isProcessing`
stays as it was (true) because the `finally` only runs after the awaited
recursive call returns. -/
def settleRetrySys (s : Sys) : Sys :=
  { isProcessing := s.isProcessing, abortController := false,
    inFlight := s.inFlight - 1, pendingRetry := true }

/-- The awaited retry delay elapses and the recursive `sendChatRequest`
issues the next fetch (main.js lines 291-292). -/
def retryFireSys (s : Sys) : Sys :=
  { isProcessing := s.isProcessing, abortController := true,
    inFlight := s.inFlight + 1, pendingRetry := false }

/-- The events of the main.js event loop that touch the request skeleton. -/
inductive SysStep : Sys → Sys → Prop
  /-- a chat form submission / Enter keypress (main.js lines 188-215) -/
  | submit (s : Sys) : SysStep s (submitSys s)
  /-- the chat fetch settles; handler takes a non-retry path -/
  | settle (s : Sys) (h : s.abortController = true) : SysStep s (settleNoRetrySys s)
  /-- the chat fetch settles with 503/504 and a retry is scheduled -/
  | settleRetry (s : Sys) (h : s.abortController = true) : SysStep s (settleRetrySys s)
  /-- the scheduled retry delay fires -/
  | retryFire (s : Sys) (h : s.pendingRetry = true) : SysStep s (retryFireSys s)
  /-- the request timeout fires and aborts the controller
      (main.js lines 253-255); the aborted fetch tears down -/
  | timeout (s : Sys) (h : s.abortController = true) : SysStep s (settleNoRetrySys s)

/-- States reachable from page load. -/
inductive Reach : Sys → Prop
  | init : Reach sysInit
  | step {s s' : Sys} : Reach s → SysStep s s' → Reach s'

/-- The inductive invariant: the controller handle exists iff one fetch is in
flight, an idle UI has no fetch and no pending retry, and a pending retry has
no live controller. -/
def SysInv (s : Sys) : Prop :=
  s.inFlight = (if s.abortController then 1 else 0) ∧
  (s.isProcessing = false → s.abortController = false ∧ s.pendingRetry = false) ∧
  (s.pendingRetry = true → s.abortController = false)

/-! ### The request timeout (main.js lines 252-255, 268, 315-321)

A single chat request with its one-shot timeout timer.  `completesAt` is the
time at which the `fetch` promise would settle on its own; the timer is
scheduled at `REQUEST_TIMEOUT_MS`.  Events are processed in time order, as
the event loop does. -/

structure TReq where
  abortController : Bool
  timerActive : Bool
  fetchAborted : Bool
  finishedAt : Option Nat
  timedOutMsg : Bool
deriving DecidableEq

/-- The fresh request right after `fetch` is issued (main.js lines 252-255):
a live controller and an armed timer. -/
def treqStart : TReq :=
  { abortController := true, timerActive := true, fetchAborted := false,
    finishedAt := none, timedOutMsg := false }

/-- The timer callback (main.js lines 253-255):
`if (state.abortController) state.abortController.abort()`. -/
def fireTimer (r : TReq) : TReq :=
  let r1 := { r with timerActive := false }
  if r1.abortController then { r1 with fetchAborted := true } else r1

/-- The response path (main.js lines 268-270): `clearTimeout(timeoutId)`,
then the handler nulls the controller. -/
def settleResponse (t : Nat) (r : TReq) : TReq :=
  { r with finishedAt := some t, timerActive := false, abortController := false }

/-- The `AbortError` path (main.js lines 315-321): `clearTimeout(timeoutId)`,
null the controller, show "Request timed out". -/
def settleAbort (t : Nat) (r : TReq) : TReq :=
  { r with finishedAt := some t, timerActive := false, abortController := false,
           timedOutMsg := true }

/-- Run one request whose fetch would settle at `completesAt`. -/
def runRequest (completesAt : Nat) : TReq :=
  if completesAt ≤ REQUEST_TIMEOUT_MS then
    settleResponse completesAt treqStart
  else
    let r1 := fireTimer treqStart
    if r1.fetchAborted then settleAbort REQUEST_TIMEOUT_MS r1
    else settleResponse completesAt r1

/-! ### Trace helpers and queue freshness -/

def isFetch : Ev → Bool
  | Ev.fetch => true
  | _ => false

/-- Number of chat `fetch` calls recorded in a trace. -/
def fetchCount (evs : List Ev) : Nat := evs.countP isFetch

def waitOf : Ev → Option Nat
  | Ev.wait ms => some ms
  | _ => none

/-- The awaited delays recorded in a trace, in order. -/
def waitsOf (evs : List Ev) : List Nat := evs.filterMap waitOf

/-- Request keys contain `Date.now()`, so every key already in
`state.requestQueue` is older than the current time. -/
def FreshQueue (st : State) : Prop := ∀ k ∈ st.requestQueue, k < st.time

/-- The client state right after a chat fetch settles (main.js lines
228-270): the request key is queued, the clock advanced, the input cleared,
the UI locked, and the controller nulled again by the settled handler. -/
def stAfterFetch (st : State) : State :=
  { st with requestQueue := st.time :: st.requestQueue, time := st.time + 1,
            stagedFiles := [], isProcessing := true, controlsDisabled := true,
            abortController := false }

/-- The echoed user message event of main.js line 234. -/
def userEcho (message : List Char) (hasFiles : Bool) (st : State) : Ev :=
  Ev.userMsg message
    (if hasFiles then some (st.stagedFiles.map fun f => f.file.name) else none)

/-- The state handed to the recursive retry call: post-fetch, with the retry
counter bumped (main.js line 289). -/
def retryState (st : State) : State :=
  { stAfterFetch st with retryCount := st.retryCount + 1 }

/-! ### Remaining definitions used by the claim statements and witnesses -/

/-- A file that passes both per-file checks of `handleFileStage`. -/
def okFile (f : FileInfo) : Bool :=
  !fileTooLarge f && ALLOWED_EXTS.contains (fileExt f.name)

/-- The rejection messages `handleFileStage` produces for one file. -/
def rejectionMsgs (f : FileInfo) : List Ev :=
  if fileTooLarge f then [Ev.sysMsg (f.name ++ " too large.".data)]
  else if !ALLOWED_EXTS.contains (fileExt f.name) then
    [Ev.sysMsg (f.name ++ " unsupported.".data)]
  else []

/-- The staged-file bounds stated by the spec: at most `MAX_FILES` entries,
each within the size limit and with an allowed extension. -/
def StagedInv (l : List StagedFile) : Prop :=
  l.length ≤ MAX_FILES ∧ ∀ sf ∈ l, okFile sf.file = true

/-- Modelled from the spec's words for comparison in C10: a submission is
accepted when the client is online, idle, has content to send, and at least
1000 ms have passed since the previously accepted submission. -/
def submissionAccepted (now : Int) (message : List Char) (st : State) : Bool :=
  st.isOnline && !st.isProcessing &&
    (!message.isEmpty || !st.stagedFiles.isEmpty) &&
    decide (1000 ≤ now - st.lastRequestTime)

instance (st : State) : Decidable (FreshQueue st) :=
  inferInstanceAs (Decidable (∀ k ∈ st.requestQueue, k < st.time))

instance (l : List StagedFile) : Decidable (StagedInv l) :=
  inferInstanceAs (Decidable (_ ∧ _))

/-- A concrete idle client state, used by the witnesses. -/
def st0 : State :=
  { currentUserId := some "guest_u".data, authToken := none, currentThreadId := none,
    stagedFiles := [], isLoginMode := true, isProcessing := false, retryCount := 0,
    abortController := false, isOnline := true, lastRequestTime := 0,
    requestQueue := [], time := 100, nextFileId := 0, uuidSeed := "u1".data,
    storage := { authToken := none, userId := none, userEmail := none, guestId := none },
    authModalOpen := false, authModalMsg := none, controlsDisabled := false }

/-- A skeleton state with one request being processed. -/
def sBusy : Sys :=
  { isProcessing := true, abortController := true, inFlight := 1, pendingRetry := false }

/-- A state whose conversation already has a backend-assigned thread id. -/
def c7st : State := { st0 with currentThreadId := some "t1".data }

/-! ### Theorems -/

theorem mem_repChar {x c : Char} {r l : List Char} :
    x ∈ repChar c r l ↔ (c ∈ l ∧ x ∈ r) ∨ (x ∈ l ∧ x ≠ c) := by
  constructor
  · intro h
    rcases List.mem_flatMap.mp h with ⟨a, ha, hx⟩
    by_cases hac : a = c
    · subst hac
      rw [if_pos rfl] at hx
      exact Or.inl ⟨ha, hx⟩
    · rw [if_neg hac] at hx
      have hxa : x = a := List.mem_singleton.mp hx
      subst hxa
      exact Or.inr ⟨ha, hac⟩
  · rintro (⟨hc, hr⟩ | ⟨hl, hne⟩)
    · exact List.mem_flatMap.mpr ⟨c, hc, by rw [if_pos rfl]; exact hr⟩
    · exact List.mem_flatMap.mpr ⟨x, hl, by rw [if_neg hne]; exact List.mem_singleton.mpr rfl⟩

/-- Replacing `x` itself removes every `x` provided the replacement text does
not contain `x`. -/
theorem repChar_self_not_mem {x : Char} {r l : List Char} (hr : x ∉ r) :
    x ∉ repChar x r l := by
  intro h
  rcases mem_repChar.mp h with ⟨_, hxr⟩ | ⟨_, hne⟩
  · exact hr hxr
  · exact hne rfl

/-- A character absent from the input and from the replacement text stays
absent. -/
theorem repChar_not_mem {x c : Char} {r l : List Char} (hr : x ∉ r) (hl : x ∉ l) :
    x ∉ repChar c r l := by
  intro h
  rcases mem_repChar.mp h with ⟨_, hxr⟩ | ⟨hxl, _⟩
  · exact hr hxr
  · exact hl hxl

theorem escapeHtml_not_mem_lt (l : List Char) : '<' ∉ escapeHtml l := by
  unfold escapeHtml
  by_cases h : l.isEmpty
  · simp [h]
  · simp only [h, if_neg, Bool.false_eq_true, not_false_eq_true, if_false]
    exact repChar_not_mem (by decide)
      (repChar_not_mem (by decide)
        (repChar_not_mem (by decide)
          (repChar_self_not_mem (by decide))))

theorem escapeHtml_not_mem_gt (l : List Char) : '>' ∉ escapeHtml l := by
  unfold escapeHtml
  by_cases h : l.isEmpty
  · simp [h]
  · simp only [h, if_neg, Bool.false_eq_true, not_false_eq_true, if_false]
    exact repChar_not_mem (by decide)
      (repChar_not_mem (by decide)
        (repChar_self_not_mem (by decide)))

theorem escapeHtml_not_mem_quot (l : List Char) : '"' ∉ escapeHtml l := by
  unfold escapeHtml
  by_cases h : l.isEmpty
  · simp [h]
  · simp only [h, if_neg, Bool.false_eq_true, not_false_eq_true, if_false]
    exact repChar_not_mem (by decide) (repChar_self_not_mem (by decide))

theorem escapeHtml_not_mem_apos (l : List Char) : apos ∉ escapeHtml l := by
  unfold escapeHtml
  by_cases h : l.isEmpty
  · simp [h]
  · simp only [h, if_neg, Bool.false_eq_true, not_false_eq_true, if_false]
    exact repChar_self_not_mem (by decide)

theorem sysInv_init : SysInv sysInit := by
  refine ⟨rfl, fun _ => ⟨rfl, rfl⟩, fun h => rfl⟩

theorem sysInv_step {s s' : Sys} (hs : SysInv s) (hstep : SysStep s s') : SysInv s' := by
  obtain ⟨h1, h2, h3⟩ := hs
  cases hstep with
  | submit =>
    unfold submitSys cancelOngoingSys
    by_cases hp : s.isProcessing = true
    · by_cases hc : s.abortController = true
      · have hpr : s.pendingRetry = false := by
          cases hpf : s.pendingRetry
          · rfl
          · exact absurd hc (by simp [h3 hpf])
        simp only [hp, if_true, hc]
        exact ⟨by simp [h1, hc], fun _ => ⟨rfl, hpr⟩, fun _ => rfl⟩
      · have hc' : s.abortController = false := by simpa using hc
        simp only [hp, if_true, hc', Bool.false_eq_true, if_false]
        exact ⟨h1, h2, h3⟩
    · have hp' : s.isProcessing = false := by simpa using hp
      obtain ⟨hc, hpr⟩ := h2 hp'
      simp only [hp', Bool.false_eq_true, if_false]
      refine ⟨by simp [h1, hc], ?_, ?_⟩
      · intro hx; simp at hx
      · intro hx; simp [hpr] at hx
  | settle h =>
    exact ⟨by simp [settleNoRetrySys, h1, h], fun _ => ⟨rfl, rfl⟩,
           fun hx => nomatch hx⟩
  | settleRetry h =>
    exact ⟨by simp [settleRetrySys, h1, h], fun hp => absurd (h2 hp).1 (by simp [h]),
           fun _ => rfl⟩
  | retryFire h =>
    have hc : s.abortController = false := h3 h
    exact ⟨by simp [retryFireSys, h1, hc], fun hp => absurd h (by simp [(h2 hp).2]),
           fun hx => nomatch hx⟩
  | timeout h =>
    exact ⟨by simp [settleNoRetrySys, h1, h], fun _ => ⟨rfl, rfl⟩,
           fun hx => nomatch hx⟩

theorem sysInv_reach {s : Sys} (h : Reach s) : SysInv s := by
  induction h with
  | init => exact sysInv_init
  | step _ hstep ih => exact sysInv_step ih hstep

theorem freshQueue_not_mem {st : State} (h : FreshQueue st) :
    st.time ∉ st.requestQueue :=
  fun hmem => absurd (h _ hmem) (lt_irrefl _)

@[simp] theorem finallyBlock_isProcessing (k : Nat) (st : State) :
    (finallyBlock k st).isProcessing = false := rfl

@[simp] theorem finallyBlock_controlsDisabled (k : Nat) (st : State) :
    (finallyBlock k st).controlsDisabled = false := rfl

@[simp] theorem finallyBlock_requestQueue (k : Nat) (st : State) :
    (finallyBlock k st).requestQueue = st.requestQueue.erase k := rfl

@[simp] theorem finallyBlock_stagedFiles (k : Nat) (st : State) :
    (finallyBlock k st).stagedFiles = st.stagedFiles := rfl

@[simp] theorem finallyBlock_lastRequestTime (k : Nat) (st : State) :
    (finallyBlock k st).lastRequestTime = st.lastRequestTime := rfl

@[simp] theorem finallyBlock_retryCount (k : Nat) (st : State) :
    (finallyBlock k st).retryCount = st.retryCount := rfl

@[simp] theorem finallyBlock_currentThreadId (k : Nat) (st : State) :
    (finallyBlock k st).currentThreadId = st.currentThreadId := rfl

/-- The state handed to the recursive retry call keeps the queue fresh: it
pushed the key `st.time` and advanced the clock. -/
theorem freshQueue_step {st st' : State} (hq : FreshQueue st)
    (hqueue : st'.requestQueue = st.time :: st.requestQueue)
    (htime : st'.time = st.time + 1) : FreshQueue st' := by
  intro k hk
  rw [hqueue] at hk
  rw [htime]
  rcases List.mem_cons.mp hk with rfl | hk
  · exact Nat.lt_succ_self _
  · exact Nat.lt_succ_of_lt (hq _ hk)

/-! Branch equations for one `sendChatRequest` attempt.  The outcome-list
tail is symbolic, so the recursive retry call stays folded. -/

theorem send_eq_abort (message : List Char) (hasFiles : Bool) (st : State)
    (rest : List Outcome) (hnm : st.time ∉ st.requestQueue) :
    sendChatRequest message hasFiles st (Outcome.aborted :: rest) =
      (finallyBlock st.time (stAfterFetch st),
       [userEcho message hasFiles st, Ev.fetch,
        Ev.sysMsg "Request timed out".data]) := by
  simp only [sendChatRequest, setProcessing, clearStagedFiles, stAfterFetch, userEcho,
             List.cons_append, List.nil_append]
  rw [if_neg hnm]

theorem send_eq_net (message : List Char) (hasFiles : Bool) (st : State)
    (rest : List Outcome) (m : List Char) (hnm : st.time ∉ st.requestQueue) :
    sendChatRequest message hasFiles st (Outcome.networkError m :: rest) =
      (finallyBlock st.time (stAfterFetch st),
       [userEcho message hasFiles st, Ev.fetch,
        Ev.sysMsg ("Error: ".data ++ m)]) := by
  simp only [sendChatRequest, setProcessing, clearStagedFiles, stAfterFetch, userEcho,
             List.cons_append, List.nil_append]
  rw [if_neg hnm]

theorem send_eq_402 (message : List Char) (hasFiles : Bool) (st : State)
    (rest : List Outcome) (tid : Option (List Char)) (ans : List Char)
    (errDetail : Option (List Char)) (hnm : st.time ∉ st.requestQueue) :
    sendChatRequest message hasFiles st (Outcome.status 402 tid ans errDetail :: rest) =
      (finallyBlock st.time
        { stAfterFetch st with isLoginMode := false, authModalOpen := true,
                               authModalMsg := some "Quota Exceeded".data },
       [userEcho message hasFiles st, Ev.fetch,
        Ev.sysMsg "Free trial limit reached. Please sign in.".data,
        Ev.authModal false (some "Quota Exceeded".data)]) := by
  simp only [sendChatRequest, setProcessing, clearStagedFiles, showAuthModal,
             stAfterFetch, userEcho, List.cons_append, List.nil_append, if_true, if_false]
  rw [if_neg hnm]

theorem send_eq_401 (message : List Char) (hasFiles : Bool) (st : State)
    (rest : List Outcome) (tid : Option (List Char)) (ans : List Char)
    (errDetail : Option (List Char)) (hnm : st.time ∉ st.requestQueue) :
    sendChatRequest message hasFiles st (Outcome.status 401 tid ans errDetail :: rest) =
      (finallyBlock st.time
        { stAfterFetch st with
            storage := { authToken := none, userId := none, userEmail := none,
                         guestId := some ("guest_".data ++ st.uuidSeed) },
            authToken := none,
            currentUserId := some ("guest_".data ++ st.uuidSeed),
            retryCount := 0, currentThreadId := none,
            isLoginMode := true, authModalOpen := true,
            authModalMsg := some "Session expired. Log in again.".data },
       [userEcho message hasFiles st, Ev.fetch,
        Ev.sysMsg "Logged out successfully".data,
        Ev.authModal true (some "Session expired. Log in again.".data)]) := by
  simp only [sendChatRequest, setProcessing, clearStagedFiles, showAuthModal,
             handleLogout, handleNewSession, cancelOngoingRequest, stAfterFetch,
             userEcho, List.cons_append, List.nil_append, if_true, if_false,
             Bool.false_eq_true, Bool.true_eq_false]
  rw [if_neg hnm, if_neg (by decide : ¬(401 : Nat) = 402)]

theorem send_eq_429 (message : List Char) (hasFiles : Bool) (st : State)
    (rest : List Outcome) (tid : Option (List Char)) (ans : List Char)
    (errDetail : Option (List Char)) (hnm : st.time ∉ st.requestQueue) :
    sendChatRequest message hasFiles st (Outcome.status 429 tid ans errDetail :: rest) =
      (finallyBlock st.time (stAfterFetch st),
       [userEcho message hasFiles st, Ev.fetch,
        Ev.sysMsg "Rate limit exceeded. Waiting 3s...".data, Ev.wait 3000]) := by
  simp only [sendChatRequest, setProcessing, clearStagedFiles, stAfterFetch, userEcho,
             List.cons_append, List.nil_append, if_true, if_false]
  rw [if_neg hnm, if_neg (by decide : ¬(429 : Nat) = 402),
      if_neg (by decide : ¬(429 : Nat) = 401)]

theorem send_eq_retry (message : List Char) (hasFiles : Bool) (st : State)
    (rest : List Outcome) (code : Nat) (tid : Option (List Char)) (ans : List Char)
    (errDetail : Option (List Char)) (hnm : st.time ∉ st.requestQueue)
    (h5xx : code = 503 ∨ code = 504) (hretry : st.retryCount < MAX_RETRY_ATTEMPTS) :
    sendChatRequest message hasFiles st (Outcome.status code tid ans errDetail :: rest) =
      (finallyBlock st.time
        (sendChatRequest message hasFiles (retryState st) rest).1,
       [userEcho message hasFiles st, Ev.fetch,
        Ev.sysMsg (retryMsg (st.retryCount + 1)),
        Ev.wait (RETRY_DELAY_MS * (st.retryCount + 1))] ++
         (sendChatRequest message hasFiles (retryState st) rest).2) := by
  have h402 : ¬code = 402 := by rcases h5xx with rfl | rfl <;> decide
  have h401 : ¬code = 401 := by rcases h5xx with rfl | rfl <;> decide
  have h429 : ¬code = 429 := by rcases h5xx with rfl | rfl <;> decide
  simp only [sendChatRequest, setProcessing, clearStagedFiles, stAfterFetch, userEcho,
             retryState, List.cons_append, List.nil_append]
  rw [if_neg hnm, if_neg h402, if_neg h401, if_neg h429, if_pos h5xx, if_pos hretry]

theorem send_eq_exhaust (message : List Char) (hasFiles : Bool) (st : State)
    (rest : List Outcome) (code : Nat) (tid : Option (List Char)) (ans : List Char)
    (errDetail : Option (List Char)) (hnm : st.time ∉ st.requestQueue)
    (h5xx : code = 503 ∨ code = 504)
    (hretry : ¬st.retryCount < MAX_RETRY_ATTEMPTS) :
    sendChatRequest message hasFiles st (Outcome.status code tid ans errDetail :: rest) =
      (finallyBlock st.time { stAfterFetch st with retryCount := 0 },
       [userEcho message hasFiles st, Ev.fetch,
        Ev.sysMsg "Service unavailable. Please try again later.".data]) := by
  have h402 : ¬code = 402 := by rcases h5xx with rfl | rfl <;> decide
  have h401 : ¬code = 401 := by rcases h5xx with rfl | rfl <;> decide
  have h429 : ¬code = 429 := by rcases h5xx with rfl | rfl <;> decide
  simp only [sendChatRequest, setProcessing, clearStagedFiles, stAfterFetch, userEcho,
             List.cons_append, List.nil_append]
  rw [if_neg hnm, if_neg h402, if_neg h401, if_neg h429, if_pos h5xx, if_neg hretry]

theorem send_eq_ok (message : List Char) (hasFiles : Bool) (st : State)
    (rest : List Outcome) (code : Nat) (tid : Option (List Char)) (ans : List Char)
    (errDetail : Option (List Char)) (hnm : st.time ∉ st.requestQueue)
    (hok : responseOk code = true) :
    sendChatRequest message hasFiles st (Outcome.status code tid ans errDetail :: rest) =
      (finallyBlock st.time
        { stAfterFetch st with
            currentThreadId :=
              (match tid with
               | some t => some t
               | none => st.currentThreadId),
            retryCount := 0 },
       [userEcho message hasFiles st, Ev.fetch, Ev.aiMsg ans]) := by
  have h402 : ¬code = 402 := by intro h; rw [h] at hok; exact absurd hok (by decide)
  have h401 : ¬code = 401 := by intro h; rw [h] at hok; exact absurd hok (by decide)
  have h429 : ¬code = 429 := by intro h; rw [h] at hok; exact absurd hok (by decide)
  have h5xx : ¬(code = 503 ∨ code = 504) := by
    rintro (h | h) <;> rw [h] at hok <;> exact absurd hok (by decide)
  simp only [sendChatRequest, setProcessing, clearStagedFiles, stAfterFetch, userEcho,
             List.cons_append, List.nil_append]
  rw [if_neg hnm, if_neg h402, if_neg h401, if_neg h429, if_neg h5xx, if_pos hok]
  cases tid with
  | none => rfl
  | some t => rfl

theorem send_eq_err (message : List Char) (hasFiles : Bool) (st : State)
    (rest : List Outcome) (code : Nat) (tid : Option (List Char)) (ans : List Char)
    (errDetail : Option (List Char)) (hnm : st.time ∉ st.requestQueue)
    (h402 : ¬code = 402) (h401 : ¬code = 401) (h429 : ¬code = 429)
    (h5xx : ¬(code = 503 ∨ code = 504)) (hok : ¬responseOk code = true) :
    sendChatRequest message hasFiles st (Outcome.status code tid ans errDetail :: rest) =
      (finallyBlock st.time (stAfterFetch st),
       [userEcho message hasFiles st, Ev.fetch,
        Ev.sysMsg ("Error: ".data ++
          (match errDetail with
           | some m => m
           | none => "Error: ".data ++ (Nat.repr code).data))]) := by
  simp only [sendChatRequest, setProcessing, clearStagedFiles, stAfterFetch, userEcho,
             List.cons_append, List.nil_append]
  rw [if_neg hnm, if_neg h402, if_neg h401, if_neg h429, if_neg h5xx, if_neg hok]

/-- The recursive retry call consumes the empty outcome list immediately. -/
theorem send_eq_nil (message : List Char) (hasFiles : Bool) (st : State) :
    sendChatRequest message hasFiles st [] = (st, []) := rfl

/-- Every terminating run of `sendChatRequest` (with at least one fetch
outcome and a fresh request key) ends in the idle state: the `finally` block
has run, so processing is off, the controls are re-enabled, the request key
has been removed again, the staged files stay cleared, and the rate-limit
timestamp is untouched. -/
theorem sendChatRequest_post (message : List Char) (hasFiles : Bool) :
    ∀ (outs : List Outcome) (o : Outcome) (st : State), FreshQueue st →
      (sendChatRequest message hasFiles st (o :: outs)).1.isProcessing = false ∧
      (sendChatRequest message hasFiles st (o :: outs)).1.controlsDisabled = false ∧
      (sendChatRequest message hasFiles st (o :: outs)).1.requestQueue = st.requestQueue ∧
      (sendChatRequest message hasFiles st (o :: outs)).1.stagedFiles = [] ∧
      (sendChatRequest message hasFiles st (o :: outs)).1.lastRequestTime =
        st.lastRequestTime := by
  intro outs
  induction outs with
  | nil =>
    intro o st hq
    have hnm := freshQueue_not_mem hq
    cases o with
    | status code tid ans errDetail =>
      by_cases h402 : code = 402
      · subst h402
        rw [send_eq_402 message hasFiles st [] tid ans errDetail hnm]
        exact ⟨rfl, rfl, List.erase_cons_head _ _, rfl, rfl⟩
      · by_cases h401 : code = 401
        · subst h401
          rw [send_eq_401 message hasFiles st [] tid ans errDetail hnm]
          exact ⟨rfl, rfl, List.erase_cons_head _ _, rfl, rfl⟩
        · by_cases h429 : code = 429
          · subst h429
            rw [send_eq_429 message hasFiles st [] tid ans errDetail hnm]
            exact ⟨rfl, rfl, List.erase_cons_head _ _, rfl, rfl⟩
          · by_cases h5xx : code = 503 ∨ code = 504
            · by_cases hretry : st.retryCount < MAX_RETRY_ATTEMPTS
              · rw [send_eq_retry message hasFiles st [] code tid ans errDetail hnm
                      h5xx hretry, send_eq_nil]
                exact ⟨rfl, rfl, List.erase_cons_head _ _, rfl, rfl⟩
              · rw [send_eq_exhaust message hasFiles st [] code tid ans errDetail hnm
                      h5xx hretry]
                exact ⟨rfl, rfl, List.erase_cons_head _ _, rfl, rfl⟩
            · by_cases hok : responseOk code = true
              · rw [send_eq_ok message hasFiles st [] code tid ans errDetail hnm hok]
                exact ⟨rfl, rfl, List.erase_cons_head _ _, rfl, rfl⟩
              · rw [send_eq_err message hasFiles st [] code tid ans errDetail hnm
                      h402 h401 h429 h5xx hok]
                exact ⟨rfl, rfl, List.erase_cons_head _ _, rfl, rfl⟩
    | networkError m =>
      rw [send_eq_net message hasFiles st [] m hnm]
      exact ⟨rfl, rfl, List.erase_cons_head _ _, rfl, rfl⟩
    | aborted =>
      rw [send_eq_abort message hasFiles st [] hnm]
      exact ⟨rfl, rfl, List.erase_cons_head _ _, rfl, rfl⟩
  | cons o2 rest ih =>
    intro o st hq
    have hnm := freshQueue_not_mem hq
    cases o with
    | status code tid ans errDetail =>
      by_cases h402 : code = 402
      · subst h402
        rw [send_eq_402 message hasFiles st (o2 :: rest) tid ans errDetail hnm]
        exact ⟨rfl, rfl, List.erase_cons_head _ _, rfl, rfl⟩
      · by_cases h401 : code = 401
        · subst h401
          rw [send_eq_401 message hasFiles st (o2 :: rest) tid ans errDetail hnm]
          exact ⟨rfl, rfl, List.erase_cons_head _ _, rfl, rfl⟩
        · by_cases h429 : code = 429
          · subst h429
            rw [send_eq_429 message hasFiles st (o2 :: rest) tid ans errDetail hnm]
            exact ⟨rfl, rfl, List.erase_cons_head _ _, rfl, rfl⟩
          · by_cases h5xx : code = 503 ∨ code = 504
            · by_cases hretry : st.retryCount < MAX_RETRY_ATTEMPTS
              · rw [send_eq_retry message hasFiles st (o2 :: rest) code tid ans
                      errDetail hnm h5xx hretry]
                refine ⟨rfl, rfl, ?_, ?_, ?_⟩
                · rw [finallyBlock_requestQueue,
                      (ih o2 _ (freshQueue_step hq rfl rfl)).2.2.1]
                  exact List.erase_cons_head _ _
                · exact (ih o2 _ (freshQueue_step hq rfl rfl)).2.2.2.1
                · exact (ih o2 _ (freshQueue_step hq rfl rfl)).2.2.2.2
              · rw [send_eq_exhaust message hasFiles st (o2 :: rest) code tid ans
                      errDetail hnm h5xx hretry]
                exact ⟨rfl, rfl, List.erase_cons_head _ _, rfl, rfl⟩
            · by_cases hok : responseOk code = true
              · rw [send_eq_ok message hasFiles st (o2 :: rest) code tid ans errDetail
                      hnm hok]
                exact ⟨rfl, rfl, List.erase_cons_head _ _, rfl, rfl⟩
              · rw [send_eq_err message hasFiles st (o2 :: rest) code tid ans errDetail
                      hnm h402 h401 h429 h5xx hok]
                exact ⟨rfl, rfl, List.erase_cons_head _ _, rfl, rfl⟩
    | networkError m =>
      rw [send_eq_net message hasFiles st (o2 :: rest) m hnm]
      exact ⟨rfl, rfl, List.erase_cons_head _ _, rfl, rfl⟩
    | aborted =>
      rw [send_eq_abort message hasFiles st (o2 :: rest) hnm]
      exact ⟨rfl, rfl, List.erase_cons_head _ _, rfl, rfl⟩

/-! ### File-staging lemmas -/

/-- The `forEach` loop of `handleFileStage` appends exactly the files passing
both checks, and emits exactly the per-file rejection messages. -/
theorem stageFold_eq (files : List FileInfo) :
    ∀ acc : State × List Ev,
      ((files.foldl stageFile acc).1.stagedFiles.map fun sf => sf.file) =
        ((acc.1.stagedFiles.map fun sf => sf.file) ++ files.filter okFile) ∧
      (files.foldl stageFile acc).2 = acc.2 ++ files.flatMap rejectionMsgs := by
  induction files with
  | nil => intro acc; simp
  | cons f fs ih =>
    intro acc
    rw [List.foldl_cons]
    obtain ⟨hA, hB⟩ := ih (stageFile acc f)
    by_cases h1 : fileTooLarge f
    · have hok : okFile f = false := by simp [okFile, h1]
      constructor
      · rw [hA]
        simp [stageFile, h1, List.filter_cons, hok]
      · rw [hB]
        simp [stageFile, h1, rejectionMsgs]
    · by_cases h2 : fileExt f.name ∈ ALLOWED_EXTS
      · have hok : okFile f = true := by simp [okFile, h1, h2]
        constructor
        · rw [hA]
          simp [stageFile, h1, h2, List.filter_cons, hok]
        · rw [hB]
          simp [stageFile, h1, h2, rejectionMsgs]
      · have hok : okFile f = false := by simp [okFile, h1, h2]
        constructor
        · rw [hA]
          simp [stageFile, h1, h2, List.filter_cons, hok]
        · rw [hB]
          simp [stageFile, h1, h2, rejectionMsgs]

/-- Staged-list length after the `forEach` loop. -/
theorem stageFold_length (files : List FileInfo) (acc : State × List Ev) :
    (files.foldl stageFile acc).1.stagedFiles.length =
      acc.1.stagedFiles.length + (files.filter okFile).length := by
  have h := congrArg List.length (stageFold_eq files acc).1
  simpa using h

/-! ### Claim theorems -/

/-- C2: at most one chat request is in flight at any point of any execution:
every state reachable in the event-loop model has `inFlight ≤ 1`, and a
submission arriving while `isProcessing` is true performs exactly
`cancelOngoingRequest` — it never starts a second fetch (the in-flight count
does not grow). -/
theorem thm_C2 :
    (∀ s : Sys, Reach s → s.inFlight ≤ 1) ∧
    (∀ s : Sys, s.isProcessing = true →
      submitSys s = cancelOngoingSys s ∧ (submitSys s).inFlight ≤ s.inFlight) := by
  constructor
  · intro s h
    obtain ⟨h1, -, -⟩ := sysInv_reach h
    rw [h1]
    split
    · exact le_refl 1
    · exact Nat.zero_le 1
  · intro s hp
    constructor
    · unfold submitSys
      rw [if_pos hp]
    · unfold submitSys cancelOngoingSys
      rw [if_pos hp]
      by_cases hc : s.abortController = true
      · rw [if_pos hc]
        exact Nat.sub_le _ _
      · rw [if_neg hc]

theorem wit_C2 :
    sysInit.inFlight ≤ 1 ∧
    (submitSys sBusy = cancelOngoingSys sBusy ∧ (submitSys sBusy).inFlight ≤ sBusy.inFlight) :=
  ⟨thm_C2.1 sysInit Reach.init, thm_C2.2 sBusy rfl⟩

/-- C3: whatever the outcome of the fetch (success, any HTTP error status,
network failure, or abort by timeout/cancellation), a terminating
`sendChatRequest` leaves the UI idle and retryable: `isProcessing` is false,
the input controls are re-enabled, and the request key is no longer in the
request queue. -/
theorem thm_C3 (message : List Char) (hasFiles : Bool) (o : Outcome)
    (outs : List Outcome) (st : State) (hq : FreshQueue st) :
    (sendChatRequest message hasFiles st (o :: outs)).1.isProcessing = false ∧
    (sendChatRequest message hasFiles st (o :: outs)).1.controlsDisabled = false ∧
    (sendChatRequest message hasFiles st (o :: outs)).1.requestQueue = st.requestQueue :=
  ⟨(sendChatRequest_post message hasFiles outs o st hq).1,
   (sendChatRequest_post message hasFiles outs o st hq).2.1,
   (sendChatRequest_post message hasFiles outs o st hq).2.2.1⟩

theorem wit_C3 :
    FreshQueue st0 ∧
    ((sendChatRequest "hi".data false st0 [Outcome.aborted]).1.isProcessing = false ∧
     (sendChatRequest "hi".data false st0 [Outcome.aborted]).1.controlsDisabled = false ∧
     (sendChatRequest "hi".data false st0 [Outcome.aborted]).1.requestQueue =
       st0.requestQueue) :=
  ⟨by decide, thm_C3 "hi".data false Outcome.aborted [] st0 (by decide)⟩

/-- C4: a chat request answered with HTTP 401 clears the session — the three
persisted keys are removed, `state.authToken` is nulled, the identity is
replaced with a fresh guest id (also persisted) — and the login modal is
opened with the session-expired message. -/
theorem thm_C4 (message : List Char) (hasFiles : Bool) (st : State)
    (rest : List Outcome) (tid : Option (List Char)) (ans : List Char)
    (errDetail : Option (List Char)) (hq : FreshQueue st) :
    (sendChatRequest message hasFiles st
        (Outcome.status 401 tid ans errDetail :: rest)).1.storage.authToken = none ∧
    (sendChatRequest message hasFiles st
        (Outcome.status 401 tid ans errDetail :: rest)).1.storage.userId = none ∧
    (sendChatRequest message hasFiles st
        (Outcome.status 401 tid ans errDetail :: rest)).1.storage.userEmail = none ∧
    (sendChatRequest message hasFiles st
        (Outcome.status 401 tid ans errDetail :: rest)).1.authToken = none ∧
    (sendChatRequest message hasFiles st
        (Outcome.status 401 tid ans errDetail :: rest)).1.currentUserId =
      some ("guest_".data ++ st.uuidSeed) ∧
    (sendChatRequest message hasFiles st
        (Outcome.status 401 tid ans errDetail :: rest)).1.storage.guestId =
      some ("guest_".data ++ st.uuidSeed) ∧
    (sendChatRequest message hasFiles st
        (Outcome.status 401 tid ans errDetail :: rest)).1.authModalOpen = true ∧
    (sendChatRequest message hasFiles st
        (Outcome.status 401 tid ans errDetail :: rest)).1.isLoginMode = true ∧
    (sendChatRequest message hasFiles st
        (Outcome.status 401 tid ans errDetail :: rest)).1.authModalMsg =
      some "Session expired. Log in again.".data := by
  have hnm := freshQueue_not_mem hq
  rw [send_eq_401 message hasFiles st rest tid ans errDetail hnm]
  exact ⟨rfl, rfl, rfl, rfl, rfl, rfl, rfl, rfl, rfl⟩

theorem wit_C4 :
    FreshQueue st0 ∧
    (sendChatRequest "hi".data false st0
        [Outcome.status 401 none [] none]).1.authToken = none ∧
    (sendChatRequest "hi".data false st0
        [Outcome.status 401 none [] none]).1.currentUserId =
      some ("guest_".data ++ st0.uuidSeed) ∧
    (sendChatRequest "hi".data false st0
        [Outcome.status 401 none [] none]).1.authModalOpen = true :=
  ⟨by decide,
   (thm_C4 "hi".data false st0 [] none [] none (by decide)).2.2.2.1,
   (thm_C4 "hi".data false st0 [] none [] none (by decide)).2.2.2.2.1,
   (thm_C4 "hi".data false st0 [] none [] none (by decide)).2.2.2.2.2.2.1⟩

/-- C5: a chat request answered with HTTP 402 or 429 surfaces a user-facing
status message and stops: exactly one fetch is performed (no retry), and the
conversation state — current thread id and retry counter — is unchanged. -/
theorem thm_C5 (message : List Char) (hasFiles : Bool) (st : State)
    (rest : List Outcome) (tid : Option (List Char)) (ans : List Char)
    (errDetail : Option (List Char)) (hq : FreshQueue st) :
    (Ev.sysMsg "Free trial limit reached. Please sign in.".data ∈
      (sendChatRequest message hasFiles st
        (Outcome.status 402 tid ans errDetail :: rest)).2 ∧
     fetchCount (sendChatRequest message hasFiles st
        (Outcome.status 402 tid ans errDetail :: rest)).2 = 1 ∧
     (sendChatRequest message hasFiles st
        (Outcome.status 402 tid ans errDetail :: rest)).1.currentThreadId =
       st.currentThreadId ∧
     (sendChatRequest message hasFiles st
        (Outcome.status 402 tid ans errDetail :: rest)).1.retryCount = st.retryCount) ∧
    (Ev.sysMsg "Rate limit exceeded. Waiting 3s...".data ∈
      (sendChatRequest message hasFiles st
        (Outcome.status 429 tid ans errDetail :: rest)).2 ∧
     fetchCount (sendChatRequest message hasFiles st
        (Outcome.status 429 tid ans errDetail :: rest)).2 = 1 ∧
     (sendChatRequest message hasFiles st
        (Outcome.status 429 tid ans errDetail :: rest)).1.currentThreadId =
       st.currentThreadId ∧
     (sendChatRequest message hasFiles st
        (Outcome.status 429 tid ans errDetail :: rest)).1.retryCount = st.retryCount) := by
  have hnm := freshQueue_not_mem hq
  rw [send_eq_402 message hasFiles st rest tid ans errDetail hnm,
      send_eq_429 message hasFiles st rest tid ans errDetail hnm]
  refine ⟨⟨?_, ?_, rfl, rfl⟩, ⟨?_, ?_, rfl, rfl⟩⟩
  · simp
  · simp [fetchCount, isFetch, userEcho]
  · simp
  · simp [fetchCount, isFetch, userEcho]

theorem wit_C5 :
    FreshQueue st0 ∧
    fetchCount (sendChatRequest "hi".data false st0
      [Outcome.status 402 none [] none]).2 = 1 ∧
    (sendChatRequest "hi".data false st0
      [Outcome.status 429 none [] none]).1.retryCount = st0.retryCount :=
  ⟨by decide,
   (thm_C5 "hi".data false st0 [] none [] none (by decide)).1.2.1,
   (thm_C5 "hi".data false st0 [] none [] none (by decide)).2.2.2.2⟩

/-- C8: a chat request that has not completed within `REQUEST_TIMEOUT_MS` is
aborted by the timer at exactly `REQUEST_TIMEOUT_MS`: it terminates via the
abort path with the timed-out message, and in every case — early completion
included — the timer does not remain active (it is cleared or has fired). -/
theorem thm_C8 (completesAt : Nat) :
    (REQUEST_TIMEOUT_MS < completesAt →
      (runRequest completesAt).fetchAborted = true ∧
      (runRequest completesAt).timedOutMsg = true ∧
      (runRequest completesAt).finishedAt = some REQUEST_TIMEOUT_MS ∧
      (runRequest completesAt).timerActive = false) ∧
    (completesAt ≤ REQUEST_TIMEOUT_MS →
      (runRequest completesAt).fetchAborted = false ∧
      (runRequest completesAt).timedOutMsg = false ∧
      (runRequest completesAt).finishedAt = some completesAt ∧
      (runRequest completesAt).timerActive = false) := by
  by_cases h : completesAt ≤ REQUEST_TIMEOUT_MS
  · refine ⟨fun hlt => absurd h (by omega), fun _ => ?_⟩
    simp [runRequest, h, settleResponse, treqStart]
  · refine ⟨fun _ => ?_, fun hle => absurd hle h⟩
    simp [runRequest, h, fireTimer, treqStart, settleAbort]

theorem wit_C8 :
    (REQUEST_TIMEOUT_MS < 60001 ∧ (runRequest 60001).timedOutMsg = true) ∧
    (1 ≤ REQUEST_TIMEOUT_MS ∧ (runRequest 1).timerActive = false) :=
  ⟨⟨by decide, ((thm_C8 60001).1 (by decide)).2.1⟩,
   ⟨by decide, ((thm_C8 1).2 (by decide)).2.2.2⟩⟩

/-- Freshness is preserved into the retry state. -/
theorem freshQueue_retryState {st : State} (hq : FreshQueue st) :
    FreshQueue (retryState st) :=
  freshQueue_step hq rfl rfl

/-- C1: on a 503/504 (busy/timeout-class) response, `sendChatRequest` retries
the same request up to `MAX_RETRY_ATTEMPTS` (3) times, awaiting
`RETRY_DELAY_MS * retryCount` between attempts (a linearly increasing 2000,
4000, 6000 ms); after exhausting the attempts it stops (exactly
`1 + MAX_RETRY_ATTEMPTS` fetches in total, regardless of further available
outcomes), surfaces the service-unavailable message, and resets the retry
counter to 0 (with the UI back to idle). -/
theorem thm_C1 (message : List Char) (hasFiles : Bool) (st : State)
    (rest : List Outcome) (code : Nat) (hq : FreshQueue st)
    (h5xx : code = 503 ∨ code = 504) (hr : st.retryCount = 0) :
    fetchCount (sendChatRequest message hasFiles st
      (Outcome.status code none [] none :: Outcome.status code none [] none ::
       Outcome.status code none [] none :: Outcome.status code none [] none :: rest)).2 =
      1 + MAX_RETRY_ATTEMPTS ∧
    waitsOf (sendChatRequest message hasFiles st
      (Outcome.status code none [] none :: Outcome.status code none [] none ::
       Outcome.status code none [] none :: Outcome.status code none [] none :: rest)).2 =
      [RETRY_DELAY_MS * 1, RETRY_DELAY_MS * 2, RETRY_DELAY_MS * 3] ∧
    Ev.sysMsg "Service unavailable. Please try again later.".data ∈
      (sendChatRequest message hasFiles st
        (Outcome.status code none [] none :: Outcome.status code none [] none ::
         Outcome.status code none [] none :: Outcome.status code none [] none :: rest)).2 ∧
    (sendChatRequest message hasFiles st
      (Outcome.status code none [] none :: Outcome.status code none [] none ::
       Outcome.status code none [] none :: Outcome.status code none [] none :: rest)).1.retryCount = 0 ∧
    (sendChatRequest message hasFiles st
      (Outcome.status code none [] none :: Outcome.status code none [] none ::
       Outcome.status code none [] none :: Outcome.status code none [] none :: rest)).1.isProcessing = false := by
  have hnm := freshQueue_not_mem hq
  have hq1 := freshQueue_retryState hq
  have hq2 := freshQueue_retryState hq1
  have hq3 := freshQueue_retryState hq2
  rw [send_eq_retry message hasFiles st _ code none [] none hnm h5xx
        (by rw [hr]; decide),
      send_eq_retry message hasFiles (retryState st) _ code none [] none
        (freshQueue_not_mem hq1) h5xx
        (by show st.retryCount + 1 < MAX_RETRY_ATTEMPTS; rw [hr]; decide),
      send_eq_retry message hasFiles (retryState (retryState st)) _ code none [] none
        (freshQueue_not_mem hq2) h5xx
        (by show st.retryCount + 1 + 1 < MAX_RETRY_ATTEMPTS; rw [hr]; decide),
      send_eq_exhaust message hasFiles (retryState (retryState (retryState st))) rest
        code none [] none (freshQueue_not_mem hq3) h5xx
        (by show ¬st.retryCount + 1 + 1 + 1 < MAX_RETRY_ATTEMPTS; rw [hr]; decide)]
  refine ⟨?_, ?_, ?_, ?_, ?_⟩
  · simp [fetchCount, isFetch, userEcho, MAX_RETRY_ATTEMPTS,
          List.countP_append, List.countP_cons]
  · simp [waitsOf, waitOf, userEcho, retryState, stAfterFetch, hr,
          List.filterMap_append, List.filterMap_cons, Nat.mul_succ]
  · simp
  · simp [retryState, stAfterFetch]
  · simp

theorem wit_C1 :
    FreshQueue st0 ∧ ((503 : Nat) = 503 ∨ (503 : Nat) = 504) ∧ st0.retryCount = 0 ∧
    fetchCount (sendChatRequest "hi".data false st0
      [Outcome.status 503 none [] none, Outcome.status 503 none [] none,
       Outcome.status 503 none [] none, Outcome.status 503 none [] none]).2 =
      1 + MAX_RETRY_ATTEMPTS :=
  ⟨by decide, Or.inl rfl, rfl,
   (thm_C1 "hi".data false st0 [] 503 (by decide) (Or.inl rfl) rfl).1⟩

/-- C7 counterexample: main.js line 306 assigns
`state.currentThreadId = data.thread_id` unconditionally, so a successful
chat response carrying a different thread id overwrites an already-assigned
one within the same conversation. -/
theorem cex_C7 :
    c7st.currentThreadId = some "t1".data ∧
    (sendChatRequest "hi".data false c7st
      [Outcome.status 200 (some "t2".data) "ok".data none]).1.currentThreadId =
      some "t2".data := by
  refine ⟨rfl, ?_⟩
  rw [send_eq_ok "hi".data false c7st [] 200 (some "t2".data) "ok".data none
        (by decide) (by decide)]
  rfl

/-- C7 (amended): a successful chat response sets `state.currentThreadId` to
the response's `thread_id` whenever one is present — overwriting a previously
assigned id if it differs — and leaves it unchanged when the response carries
none; the id is reset to null only by a new session and set to the selected
thread by a thread switch. -/
theorem thm_C7 :
    (∀ (message : List Char) (hasFiles : Bool) (st : State) (rest : List Outcome)
       (code : Nat) (tid : Option (List Char)) (ans : List Char)
       (errDetail : Option (List Char)), FreshQueue st → responseOk code = true →
       (sendChatRequest message hasFiles st
         (Outcome.status code tid ans errDetail :: rest)).1.currentThreadId =
         (match tid with
          | some t => some t
          | none => st.currentThreadId)) ∧
    (∀ st : State, (handleNewSession st).1.currentThreadId = none) ∧
    (∀ (st : State) (threadId : List Char),
       (loadThread threadId st).1.currentThreadId = some threadId) := by
  refine ⟨?_, ?_, ?_⟩
  · intro message hasFiles st rest code tid ans errDetail hq hok
    rw [send_eq_ok message hasFiles st rest code tid ans errDetail
          (freshQueue_not_mem hq) hok]
    rfl
  · intro st
    rfl
  · intro st threadId
    unfold loadThread
    by_cases h : st.currentThreadId = some threadId
    · rw [if_pos h]
      exact h
    · rw [if_neg h]

theorem wit_C7 :
    FreshQueue st0 ∧ responseOk 200 = true ∧
    (sendChatRequest "hi".data false st0
      [Outcome.status 200 none "ok".data none]).1.currentThreadId =
      st0.currentThreadId ∧
    (loadThread "t9".data st0).1.currentThreadId = some "t9".data :=
  ⟨by decide, by decide,
   thm_C7.1 "hi".data false st0 [] 200 none "ok".data none (by decide) (by decide),
   thm_C7.2.2 st0 "t9".data⟩

/-- C9: every string rendered into the chat log as message content is passed
through `escapeHtml` before insertion — user messages and attached file names
in `createMessageElement`/`renderFileAttachments`, system status messages in
`addSystemMessage`, and assistant responses via `formatAIResponse`, which
escapes first and only then applies the markdown decoration — and for every
input the output of `escapeHtml` contains none of the raw characters `<`,
`>`, `"`, `'`. -/
theorem thm_C9 :
    (∀ l : List Char,
      '<' ∉ escapeHtml l ∧ '>' ∉ escapeHtml l ∧ '"' ∉ escapeHtml l ∧
      apos ∉ escapeHtml l) ∧
    (∀ (t : List Char) (fns : Option (List (List Char))),
      userMessageHtml t fns =
        userMsgPre ++ escapeHtml t ++ userMsgMid ++ renderFileAttachments fns ++
          userMsgPost) ∧
    (∀ t : List Char,
      systemMessageHtml t = sysMsgPre ++ escapeHtml t ++ sysMsgPost) ∧
    (∀ ns : List (List Char), ns ≠ [] →
      renderFileAttachments (some ns) =
        fileListPre ++ (ns.flatMap fun x => fileChipPre ++ escapeHtml x ++ fileChipPost) ++
          fileListPost) ∧
    (∀ t : List Char,
      formatAIResponse t = if t.isEmpty then [] else mdDecorate (escapeHtml t)) := by
  refine ⟨?_, fun _ _ => rfl, fun _ => rfl, ?_, fun _ => rfl⟩
  · intro l
    exact ⟨escapeHtml_not_mem_lt l, escapeHtml_not_mem_gt l,
           escapeHtml_not_mem_quot l, escapeHtml_not_mem_apos l⟩
  · intro ns h
    cases ns with
    | nil => exact absurd rfl h
    | cons n ns => rfl

theorem wit_C9 :
    ('<' ∉ escapeHtml ['<']) ∧
    (["a".data] ≠ ([] : List (List Char))) ∧
    renderFileAttachments (some ["a".data]) =
      fileListPre ++
        (["a".data].flatMap fun x => fileChipPre ++ escapeHtml x ++ fileChipPost) ++
        fileListPost :=
  ⟨(thm_C9.1 ['<']).1, by decide, thm_C9.2.2.2.1 ["a".data] (by decide)⟩

/-- Every `sendChatRequest` attempt with an available outcome issues at least
one fetch. -/
theorem sendChatRequest_fetches (message : List Char) (hasFiles : Bool)
    (o : Outcome) (rest : List Outcome) (st : State) (hq : FreshQueue st) :
    1 ≤ fetchCount (sendChatRequest message hasFiles st (o :: rest)).2 := by
  have hnm := freshQueue_not_mem hq
  cases o with
  | aborted =>
    rw [send_eq_abort message hasFiles st rest hnm]
    simp [fetchCount, isFetch, userEcho]
  | networkError m =>
    rw [send_eq_net message hasFiles st rest m hnm]
    simp [fetchCount, isFetch, userEcho]
  | status code tid ans errDetail =>
    by_cases h402 : code = 402
    · subst h402
      rw [send_eq_402 message hasFiles st rest tid ans errDetail hnm]
      simp [fetchCount, isFetch, userEcho]
    · by_cases h401 : code = 401
      · subst h401
        rw [send_eq_401 message hasFiles st rest tid ans errDetail hnm]
        simp [fetchCount, isFetch, userEcho]
      · by_cases h429 : code = 429
        · subst h429
          rw [send_eq_429 message hasFiles st rest tid ans errDetail hnm]
          simp [fetchCount, isFetch, userEcho]
        · by_cases h5xx : code = 503 ∨ code = 504
          · by_cases hretry : st.retryCount < MAX_RETRY_ATTEMPTS
            · rw [send_eq_retry message hasFiles st rest code tid ans errDetail hnm
                    h5xx hretry]
              simp [fetchCount, isFetch, userEcho, List.countP_append,
                    List.countP_cons]
            · rw [send_eq_exhaust message hasFiles st rest code tid ans errDetail hnm
                    h5xx hretry]
              simp [fetchCount, isFetch, userEcho]
          · by_cases hok : responseOk code = true
            · rw [send_eq_ok message hasFiles st rest code tid ans errDetail hnm hok]
              simp [fetchCount, isFetch, userEcho]
            · rw [send_eq_err message hasFiles st rest code tid ans errDetail hnm
                    h402 h401 h429 h5xx hok]
              simp [fetchCount, isFetch, userEcho]

/-- Source: `cancelOngoingRequest` never touches the rate-limit timestamp and emits
no fetch. -/
theorem cancelOngoingRequest_fields (st : State) :
    (cancelOngoingRequest st).1.lastRequestTime = st.lastRequestTime ∧
    fetchCount (cancelOngoingRequest st).2 = 0 := by
  unfold cancelOngoingRequest
  by_cases h : st.abortController = true
  · rw [if_pos h]
    exact ⟨rfl, rfl⟩
  · rw [if_neg h]
    exact ⟨rfl, rfl⟩

/-- C10: `handleChatSubmit` spaces accepted submissions at least 1000 ms
apart: invoked less than 1000 ms after the previously accepted submission it
sends no network request and leaves `state.lastRequestTime` unchanged;
`lastRequestTime` is set to the current time exactly when a submission is
accepted (online, idle, nonempty, and 1000 ms elapsed), and an accepted
submission with an available outcome performs at least one fetch. -/
theorem thm_C10 (now : Int) (message : List Char) (outs : List Outcome)
    (st : State) (hq : FreshQueue st) :
    (now - st.lastRequestTime < 1000 →
      (handleChatSubmit now message outs st).1.lastRequestTime =
        st.lastRequestTime ∧
      fetchCount (handleChatSubmit now message outs st).2 = 0) ∧
    ((handleChatSubmit now message outs st).1.lastRequestTime =
      if submissionAccepted now message st then now else st.lastRequestTime) ∧
    (submissionAccepted now message st = true →
      ∀ (o : Outcome) (rest : List Outcome), outs = o :: rest →
        1 ≤ fetchCount (handleChatSubmit now message outs st).2) := by
  unfold handleChatSubmit
  by_cases h1 : st.isOnline = false
  · have hacc : submissionAccepted now message st = false := by
      simp [submissionAccepted, h1]
    rw [if_pos h1, hacc]
    exact ⟨fun _ => ⟨rfl, rfl⟩, by simp,
           fun hacc2 => absurd hacc2 (by simp [hacc])⟩
  · have h1' : st.isOnline = true := by
      cases hx : st.isOnline
      · exact absurd hx h1
      · rfl
    rw [if_neg h1]
    by_cases h2 : st.isProcessing = true
    · have hacc : submissionAccepted now message st = false := by
        simp [submissionAccepted, h2]
      rw [if_pos h2, hacc]
      obtain ⟨hl, hf⟩ := cancelOngoingRequest_fields st
      exact ⟨fun _ => ⟨hl, hf⟩, by simp [hl],
             fun hacc2 => absurd hacc2 (by simp [hacc])⟩
    · have h2' : st.isProcessing = false := by
        cases hx : st.isProcessing
        · rfl
        · exact absurd hx h2
      rw [if_neg h2]
      by_cases h3 : message = [] ∧ st.stagedFiles.length = 0
      · obtain ⟨hm, hl⟩ := h3
        have hstage : st.stagedFiles = [] := List.length_eq_zero.mp hl
        have hacc : submissionAccepted now message st = false := by
          simp [submissionAccepted, hm, hstage]
        rw [if_pos ⟨hm, hl⟩, hacc]
        exact ⟨fun _ => ⟨rfl, rfl⟩, by simp,
               fun hacc2 => absurd hacc2 (by simp [hacc])⟩
      · rw [if_neg h3]
        by_cases h4 : now - st.lastRequestTime < 1000
        · have hacc : submissionAccepted now message st = false := by
            have : ¬(1000 ≤ now - st.lastRequestTime) := by omega
            simp [submissionAccepted, this]
          rw [if_pos h4, hacc]
          exact ⟨fun _ => ⟨rfl, rfl⟩, by simp,
                 fun hacc2 => absurd hacc2 (by simp [hacc])⟩
        · have hrate : (1000 : Int) ≤ now - st.lastRequestTime := by omega
          have hcontent : (!message.isEmpty || !st.stagedFiles.isEmpty) = true := by
            rcases Decidable.not_and_iff_or_not.mp h3 with hm | hl
            · have : message.isEmpty = false := by
                cases hx : message
                · exact absurd rfl (hx ▸ hm)
                · rfl
              simp [this]
            · have : st.stagedFiles.isEmpty = false := by
                cases hx : st.stagedFiles
                · exact absurd (by rw [hx]; rfl) hl
                · rfl
              simp [this]
          have hacc : submissionAccepted now message st = true := by
            simp [submissionAccepted, h1', h2', hrate]
            rcases Bool.or_eq_true_iff.mp hcontent with h | h
            · exact Or.inl (by simpa using h)
            · exact Or.inr (by simpa using h)
          rw [if_neg h4, hacc]
          have hq1 : FreshQueue { st with lastRequestTime := now, retryCount := 0 } :=
            fun k hk => hq k hk
          refine ⟨fun h4' => absurd h4' h4, ?_, ?_⟩
          · cases outs with
            | nil => rw [send_eq_nil, if_pos rfl]
            | cons o rest =>
              rw [if_pos rfl]
              exact (sendChatRequest_post message _ rest o _ hq1).2.2.2.2
          · intro _ o rest ho
            subst ho
            exact sendChatRequest_fetches message _ o rest _ hq1

theorem wit_C10 :
    FreshQueue st0 ∧ ((500 : Int) - st0.lastRequestTime < 1000) ∧
    ((handleChatSubmit 500 "hi".data [] st0).1.lastRequestTime =
       st0.lastRequestTime ∧
     fetchCount (handleChatSubmit 500 "hi".data [] st0).2 = 0) :=
  ⟨by decide, by decide,
   (thm_C10 500 "hi".data [] st0 (by decide)).1 (by decide)⟩

/-- C6: `handleFileStage` maintains the staged-file bounds: the list never
grows past `MAX_FILES` and every staged file is within the size limit with an
allowed extension; a batch that would exceed the count and any file violating
a per-file bound are rejected (with the corresponding message) and not added,
while the passing files are appended in order; the staged list is emptied on
send (every `sendChatRequest` run ends with it empty) and by explicit
per-file removal. -/
theorem thm_C6 (files : List FileInfo) (st : State) :
    (StagedInv st.stagedFiles →
      StagedInv (handleFileStage files st).1.stagedFiles) ∧
    ((handleFileStage files st).1.stagedFiles.map (fun sf => sf.file) =
      if MAX_FILES < st.stagedFiles.length + files.length
      then st.stagedFiles.map fun sf => sf.file
      else (st.stagedFiles.map fun sf => sf.file) ++ files.filter okFile) ∧
    ((handleFileStage files st).2 =
      if MAX_FILES < st.stagedFiles.length + files.length
      then [Ev.sysMsg ("Max ".data ++ (Nat.repr MAX_FILES).data ++ " files.".data)]
      else files.flatMap rejectionMsgs) ∧
    (clearStagedFiles st).stagedFiles = [] ∧
    (∀ (message : List Char) (hasFiles : Bool) (o : Outcome) (outs : List Outcome)
       (st' : State), FreshQueue st' →
       (sendChatRequest message hasFiles st' (o :: outs)).1.stagedFiles = []) ∧
    (∀ (id : Nat) (sf : StagedFile),
       sf ∈ (handleFileRemove id st).stagedFiles ↔
         sf ∈ st.stagedFiles ∧ ¬sf.id = id) := by
  have h2 : (handleFileStage files st).1.stagedFiles.map (fun sf => sf.file) =
      if MAX_FILES < st.stagedFiles.length + files.length
      then st.stagedFiles.map fun sf => sf.file
      else (st.stagedFiles.map fun sf => sf.file) ++ files.filter okFile := by
    unfold handleFileStage
    by_cases hg : MAX_FILES < st.stagedFiles.length + files.length
    · rw [if_pos hg, if_pos hg]
    · rw [if_neg hg, if_neg hg]
      exact (stageFold_eq files (st, [])).1
  have h3 : (handleFileStage files st).2 =
      if MAX_FILES < st.stagedFiles.length + files.length
      then [Ev.sysMsg ("Max ".data ++ (Nat.repr MAX_FILES).data ++ " files.".data)]
      else files.flatMap rejectionMsgs := by
    unfold handleFileStage
    by_cases hg : MAX_FILES < st.stagedFiles.length + files.length
    · rw [if_pos hg, if_pos hg]
    · rw [if_neg hg, if_neg hg]
      have h := (stageFold_eq files (st, [])).2
      simpa using h
  refine ⟨?_, h2, h3, rfl, ?_, ?_⟩
  · intro hInv
    constructor
    · unfold handleFileStage
      by_cases hg : MAX_FILES < st.stagedFiles.length + files.length
      · rw [if_pos hg]
        exact hInv.1
      · rw [if_neg hg]
        rw [stageFold_length files (st, [])]
        exact le_trans (Nat.add_le_add_left (List.length_filter_le okFile files) _)
          (Nat.not_lt.mp hg)
    · intro sf hsf
      have hfile : sf.file ∈
          (handleFileStage files st).1.stagedFiles.map (fun sf => sf.file) :=
        List.mem_map_of_mem _ hsf
      rw [h2] at hfile
      by_cases hg : MAX_FILES < st.stagedFiles.length + files.length
      · rw [if_pos hg] at hfile
        rcases List.mem_map.mp hfile with ⟨sf0, hsf0, heq⟩
        exact heq ▸ hInv.2 sf0 hsf0
      · rw [if_neg hg] at hfile
        rcases List.mem_append.mp hfile with hmem | hmem
        · rcases List.mem_map.mp hmem with ⟨sf0, hsf0, heq⟩
          exact heq ▸ hInv.2 sf0 hsf0
        · exact List.of_mem_filter hmem
  · intro message hasFiles o outs st' hq
    exact (sendChatRequest_post message hasFiles outs o st' hq).2.2.2.1
  · intro id sf
    simp [handleFileRemove, List.mem_filter, bne_iff_ne]

theorem wit_C6 :
    StagedInv st0.stagedFiles ∧
    StagedInv (handleFileStage [⟨"a.png".data, 100⟩] st0).1.stagedFiles :=
  ⟨by decide, (thm_C6 [⟨"a.png".data, 100⟩] st0).1 (by decide)⟩

end Taskera
